import Mathlib

/-!
Verification of the backend resolution and facade construction logic of
pytest-qt's `pytestqt/qt_compat.py` (`_QtApi.set_qt_api`, `_guess_qt_api`,
`_QtApi.get_versions`), as a shallow embedding.

Modelling conventions:
- environment variables are `Option String` (`none` = unset);
- whether each Qt binding root package is importable is a record of Booleans,
  modelling the outcome of the try/except ImportError probes;
- Python exceptions on this path are a small error type: RuntimeError raised
  with an explicit message, and KeyError from the root-module dict lookup;
- backend symbols stored on the facade are represented by the dotted name of
  the source attribute they are read from (e.g. "QtCore.pyqtSignal");
- a facade attribute that the code may leave as Python `None` is an `Attr`
  value: `absent` (attribute never assigned), `pyNone` (assigned the None
  sentinel) or `sym s` (assigned a concrete backend symbol);
- the side effects of loading (sip.setapi calls and module imports) are
  recorded as an ordered event trace.
-/

namespace QtCompat

/-- Environment variables read by `set_qt_api`: `PYTEST_QT_FORCE_PYQT` and
`PYTEST_QT_API`. `none` models an unset variable. -/
structure Env where
  force_pyqt : Option String
  pytest_qt_api_var : Option String
deriving DecidableEq

/-- Which Qt binding root packages are importable in the current interpreter;
models the outcome of the `_try_import` probes. -/
structure Installed where
  pySide : Bool
  pyQt4 : Bool
  pyQt5 : Bool
deriving DecidableEq

/-- Python exceptions arising on the resolution path: `RuntimeError` raised
explicitly with a message, and `KeyError` from the `_root_modules` dict
lookup. -/
inductive QtError where
  | runtimeError (msg : String)
  | keyError (key : String)
deriving DecidableEq

/-- `_try_import(name)`: True exactly when the named root package imports. -/
def tryImport (inst : Installed) (name : String) : Bool :=
  if name = "PySide" then inst.pySide
  else if name = "PyQt4" then inst.pyQt4
  else if name = "PyQt5" then inst.pyQt5
  else false

/-- `_guess_qt_api`: probe PySide, then PyQt4, then PyQt5, returning the
discriminant of the first importable one; raise RuntimeError when none is. -/
def guess_qt_api (inst : Installed) : Except QtError String :=
  if tryImport inst "PySide" then Except.ok "pyside"
  else if tryImport inst "PyQt4" then Except.ok "pyqt4"
  else if tryImport inst "PyQt5" then Except.ok "pyqt5"
  else Except.error (QtError.runtimeError
    "pytest-qt requires either PySide, PyQt4 or PyQt5 to be installed")

/-- The closed set of values accepted for `$PYTEST_QT_API`, in source order. -/
def knownApis : List String := ["pyside", "pyqt4", "pyqt4v2", "pyqt5"]

/-- Python str.lower applied to the configured value, modelled character by
character (the recognized values are all ASCII). -/
def pyLower (s : String) : String := String.mk (s.data.map Char.toLower)

/-- The value-resolution prefix of `_QtApi.set_qt_api`, up to the assignment
`self.pytest_qt_api = qt_api`: force flag first, then a non-empty `qt_api`
argument verbatim, then the lower-cased validated environment variable, then
auto-detection. Python string formatting `msg % qt_api` is modelled by string
append (the placeholder ends the format string). -/
def resolve_qt_api (env : Env) (inst : Installed) (qt_api : String) :
    Except QtError String :=
  if env.force_pyqt.getD "false" = "true" then Except.ok "pyqt4"
  else if qt_api = "" then
    match env.pytest_qt_api_var with
    | some v =>
      if pyLower v ∈ knownApis then Except.ok (pyLower v)
      else Except.error (QtError.runtimeError
        ("Invalid value for $PYTEST_QT_API: " ++ pyLower v))
    | none => guess_qt_api inst
  else Except.ok qt_api

/-- The `_root_modules` dict mapping each discriminant to its root package. -/
def root_modules : List (String × String) :=
  [("pyside", "PySide"), ("pyqt4", "PyQt4"), ("pyqt4v2", "PyQt4"),
   ("pyqt5", "PyQt5")]

/-- A facade attribute: never assigned, assigned Python `None`, or assigned a
concrete backend symbol (named by its dotted source path). -/
inductive Attr where
  | absent
  | pyNone
  | sym (s : String)
deriving DecidableEq

/-- The uniform surface built by `set_qt_api` on the `_QtApi` instance. -/
structure Facade where
  pytest_qt_api : String
  Qt : String
  QEvent : String
  qDebug : String
  qWarning : String
  qCritical : String
  qFatal : String
  QtDebugMsg : String
  QtWarningMsg : String
  QtCriticalMsg : String
  QtFatalMsg : String
  Signal : String
  Slot : String
  Property : String
  QApplication : String
  QWidget : String
  qInstallMsgHandler : Attr
  qInstallMessageHandler : Attr
deriving DecidableEq

/-- The facade-population part of `set_qt_api`: the common assignments, the
reset of both message-handler-installer slots to `None`, then the per-backend
branch. `none` models the fall-through where no branch would populate the
binding-specific attributes (unreachable after a successful dict lookup). -/
def build_facade (qt_api : String) : Option Facade :=
  if qt_api = "pyside" then
    some { pytest_qt_api := qt_api
           Qt := "QtCore.Qt"
           QEvent := "QtCore.QEvent"
           qDebug := "QtCore.qDebug"
           qWarning := "QtCore.qWarning"
           qCritical := "QtCore.qCritical"
           qFatal := "QtCore.qFatal"
           QtDebugMsg := "QtCore.QtDebugMsg"
           QtWarningMsg := "QtCore.QtWarningMsg"
           QtCriticalMsg := "QtCore.QtCriticalMsg"
           QtFatalMsg := "QtCore.QtFatalMsg"
           Signal := "QtCore.Signal"
           Slot := "QtCore.Slot"
           Property := "QtCore.Property"
           QApplication := "QtGui.QApplication"
           QWidget := "QtGui.QWidget"
           qInstallMsgHandler := Attr.sym "QtCore.qInstallMsgHandler"
           qInstallMessageHandler := Attr.pyNone }
  else if qt_api = "pyqt4" ∨ qt_api = "pyqt4v2" ∨ qt_api = "pyqt5" then
    some { pytest_qt_api := qt_api
           Qt := "QtCore.Qt"
           QEvent := "QtCore.QEvent"
           qDebug := "QtCore.qDebug"
           qWarning := "QtCore.qWarning"
           qCritical := "QtCore.qCritical"
           qFatal := "QtCore.qFatal"
           QtDebugMsg := "QtCore.QtDebugMsg"
           QtWarningMsg := "QtCore.QtWarningMsg"
           QtCriticalMsg := "QtCore.QtCriticalMsg"
           QtFatalMsg := "QtCore.QtFatalMsg"
           Signal := "QtCore.pyqtSignal"
           Slot := "QtCore.pyqtSlot"
           Property := "QtCore.pyqtProperty"
           QApplication :=
             if qt_api = "pyqt5" then "QtWidgets.QApplication"
             else "QtGui.QApplication"
           QWidget :=
             if qt_api = "pyqt5" then "QtWidgets.QWidget" else "QtGui.QWidget"
           qInstallMsgHandler :=
             if qt_api = "pyqt5" then Attr.pyNone
             else Attr.sym "QtCore.qInstallMsgHandler"
           qInstallMessageHandler :=
             if qt_api = "pyqt5" then Attr.sym "QtCore.qInstallMessageHandler"
             else Attr.pyNone }
  else none

/-- A side effect of the loading phase: a plain `import`, a `sip.setapi`
version-2 selection call, or an `_import_module` submodule import. -/
inductive LoadEvent where
  | importPkg (name : String)
  | setApi (typeName : String)
  | importMod (root sub : String)
deriving DecidableEq

/-- The fixed list of type names passed to `sip.setapi(name, 2)`, in source
order. -/
def sip_setapi_names : List String :=
  ["QDate", "QDateTime", "QString", "QTextStream", "QTime", "QUrl", "QVariant"]

/-- The ordered side effects of the loading phase of `set_qt_api` for a
resolved discriminant: for `pyqt4v2`, `import sip` and the seven
`sip.setapi` calls come first; then QtCore, QtGui and QtTest are imported;
for `pyqt5`, QtWidgets is additionally imported inside the facade branch. -/
def load_trace (qt_api root : String) : List LoadEvent :=
  (if qt_api = "pyqt4v2" then
     LoadEvent.importPkg "sip" :: sip_setapi_names.map LoadEvent.setApi
   else []) ++
  [LoadEvent.importMod root "QtCore", LoadEvent.importMod root "QtGui",
   LoadEvent.importMod root "QtTest"] ++
  (if qt_api = "pyqt5" then [LoadEvent.importMod root "QtWidgets"] else [])

/-- The observable outcome of a successful `set_qt_api` call: the populated
facade and the ordered trace of loading side effects. -/
structure QtApiResult where
  facade : Facade
  trace : List LoadEvent
deriving DecidableEq

/-- `_QtApi.set_qt_api` end to end: resolve the discriminant, look it up in
`_root_modules` (KeyError on a miss), then perform the loading side effects
and populate the facade. -/
def set_qt_api (env : Env) (inst : Installed) (qt_api_arg : String) :
    Except QtError QtApiResult :=
  match resolve_qt_api env inst qt_api_arg with
  | Except.error e => Except.error e
  | Except.ok api =>
    match root_modules.lookup api with
    | none => Except.error (QtError.keyError api)
    | some root =>
      match build_facade api with
      | some f => Except.ok { facade := f, trace := load_trace api root }
      | none => Except.error (QtError.keyError api)

/-- The live attributes of the core (QtCore) module that `get_versions`
reads, plus the result of calling `qVersion()`. -/
structure QtCoreMod where
  version_attr : String
  PYQT_VERSION_STR : String
  QT_VERSION_STR : String
  qVersion : String
deriving DecidableEq

/-- The `VersionTuple` namedtuple returned by `get_versions`. -/
structure VersionTuple where
  qt_api : String
  qt_api_version : String
  runtime : String
  compiled : String
deriving DecidableEq

/-- `_QtApi.get_versions`, branching on the stored discriminant.
`pySide_version` models the `PySide.__version__` attribute. -/
def get_versions (pytest_qt_api : String) (pySide_version : String)
    (core : QtCoreMod) : VersionTuple :=
  if pytest_qt_api = "pyside" then
    { qt_api := "PySide", qt_api_version := pySide_version,
      runtime := core.qVersion, compiled := core.version_attr }
  else
    { qt_api := if pytest_qt_api = "pyqt5" then "PyQt5" else "PyQt4",
      qt_api_version := core.PYQT_VERSION_STR,
      runtime := core.qVersion, compiled := core.QT_VERSION_STR }

/-- Project a `set_qt_api` outcome to its facade, when it succeeded. -/
def ok_facade : Except QtError QtApiResult → Option Facade
  | Except.ok r => some r.facade
  | Except.error _ => none

/-- Project a `set_qt_api` outcome to the resolved discriminant stored on the
facade, when it succeeded. -/
def ok_api (r : Except QtError QtApiResult) : Option String :=
  (ok_facade r).map Facade.pytest_qt_api

/-- C5: with the force flag unset, no explicit override and no configured
value, when no candidate backend is probe-detectable, resolution fails with
the NoBackendFoundError (the RuntimeError naming the three candidate
bindings) and no discriminant or facade is produced. -/
theorem no_backend_found_when_nothing_detectable :
    set_qt_api ⟨none, none⟩ ⟨false, false, false⟩ "" =
      Except.error (QtError.runtimeError
        "pytest-qt requires either PySide, PyQt4 or PyQt5 to be installed") :=
  rfl

/-- C4: with the force flag unset, no explicit override and no configured
value, auto-detection probes PySide, then PyQt4, then PyQt5, and the
discriminant of the first probe-detectable candidate is chosen; in
particular, when exactly one candidate is probe-detectable it is chosen. -/
theorem auto_detect_first_probe_wins (inst : Installed) :
    (inst.pySide = true →
      ok_api (set_qt_api ⟨none, none⟩ inst "") = some "pyside") ∧
    (inst.pySide = false → inst.pyQt4 = true →
      ok_api (set_qt_api ⟨none, none⟩ inst "") = some "pyqt4") ∧
    (inst.pySide = false → inst.pyQt4 = false → inst.pyQt5 = true →
      ok_api (set_qt_api ⟨none, none⟩ inst "") = some "pyqt5") := by
  rcases inst with ⟨a, b, c⟩
  cases a <;> cases b <;> cases c <;> decide

/-- Witness for C4: with only PyQt5 probe-detectable, auto-detection
chooses pyqt5. -/
theorem auto_detect_first_probe_wins_witness :
    ok_api (set_qt_api ⟨none, none⟩ ⟨false, false, true⟩ "") = some "pyqt5" :=
  (auto_detect_first_probe_wins ⟨false, false, true⟩).2.2 rfl rfl rfl

/-- C10: the legacy force flag takes effect only when the environment
variable is exactly the lower-case string "true": for any other value
resolution behaves exactly as if the variable were unset, while the exact
value "true" forces the pyqt4 discriminant. -/
theorem force_flag_requires_exact_lowercase_true (v : String) (h : v ≠ "true")
    (cfg : Option String) (inst : Installed) (ov : String) :
    resolve_qt_api ⟨some v, cfg⟩ inst ov = resolve_qt_api ⟨none, cfg⟩ inst ov ∧
    resolve_qt_api ⟨some "true", cfg⟩ inst ov = Except.ok "pyqt4" := by
  constructor
  · simp [resolve_qt_api, h]
  · simp [resolve_qt_api]

/-- Witness for C10: the capitalized value "True" does not trigger the
force flag, so a configured pyqt5 value wins. -/
theorem force_flag_requires_exact_lowercase_true_witness :
    resolve_qt_api ⟨some "True", some "pyqt5"⟩ ⟨true, true, true⟩ "" =
        resolve_qt_api ⟨none, some "pyqt5"⟩ ⟨true, true, true⟩ "" ∧
    resolve_qt_api ⟨some "true", some "pyqt5"⟩ ⟨true, true, true⟩ "" =
        Except.ok "pyqt4" :=
  force_flag_requires_exact_lowercase_true "True" (by decide)
    (some "pyqt5") ⟨true, true, true⟩ ""

/-- C1: for every backend discriminant in the closed set, facade
construction succeeds and exactly one of the two message-handler-installer
slots holds a concrete backend symbol while the other holds the explicit
None sentinel; neither slot is left unassigned. -/
theorem exactly_one_installer_slot_populated (api : String)
    (h : api ∈ knownApis) :
    ∃ f, build_facade api = some f ∧
      f.qInstallMsgHandler ≠ Attr.absent ∧
      f.qInstallMessageHandler ≠ Attr.absent ∧
      ((∃ s, f.qInstallMsgHandler = Attr.sym s) ∧
          f.qInstallMessageHandler = Attr.pyNone ∨
        f.qInstallMsgHandler = Attr.pyNone ∧
          (∃ s, f.qInstallMessageHandler = Attr.sym s)) := by
  simp only [knownApis, List.mem_cons, List.not_mem_nil, or_false] at h
  rcases h with h | h | h | h <;> subst h <;>
    refine ⟨_, rfl, by decide, by decide, ?_⟩
  · exact Or.inl ⟨⟨"QtCore.qInstallMsgHandler", rfl⟩, rfl⟩
  · exact Or.inl ⟨⟨"QtCore.qInstallMsgHandler", rfl⟩, rfl⟩
  · exact Or.inl ⟨⟨"QtCore.qInstallMsgHandler", rfl⟩, rfl⟩
  · exact Or.inr ⟨rfl, ⟨"QtCore.qInstallMessageHandler", rfl⟩⟩

/-- Witness for C1: the pyside facade populates the legacy installer slot
and leaves the modern one as the None sentinel. -/
theorem exactly_one_installer_slot_populated_witness :
    ∃ f, build_facade "pyside" = some f ∧
      f.qInstallMsgHandler ≠ Attr.absent ∧
      f.qInstallMessageHandler ≠ Attr.absent ∧
      ((∃ s, f.qInstallMsgHandler = Attr.sym s) ∧
          f.qInstallMessageHandler = Attr.pyNone ∨
        f.qInstallMsgHandler = Attr.pyNone ∧
          (∃ s, f.qInstallMessageHandler = Attr.sym s)) :=
  exactly_one_installer_slot_populated "pyside" (by decide)

/-- C3: a non-empty configured value whose lower-cased form is not in the
known set, with the force flag unset and no explicit override, makes
resolution fail with the ConfigurationError (the invalid-value
RuntimeError); no facade is constructed. -/
theorem invalid_configured_value_raises (v : String) (_hne : v ≠ "")
    (h : pyLower v ∉ knownApis) (inst : Installed) :
    set_qt_api ⟨none, some v⟩ inst "" =
      Except.error (QtError.runtimeError
        ("Invalid value for $PYTEST_QT_API: " ++ pyLower v)) := by
  unfold set_qt_api
  simp [resolve_qt_api, h]

/-- Witness for C3: the configured value "bogus" is rejected. -/
theorem invalid_configured_value_raises_witness :
    set_qt_api ⟨none, some "bogus"⟩ ⟨true, true, true⟩ "" =
      Except.error (QtError.runtimeError
        ("Invalid value for $PYTEST_QT_API: " ++ pyLower "bogus")) :=
  invalid_configured_value_raises "bogus" (by decide) (by decide)
    ⟨true, true, true⟩

/-- C6: a configured value whose lower-cased form is in the known set, with
the force flag unset and empty explicit override, resolves to that
lower-cased discriminant and the facade records it. -/
theorem valid_configured_value_selected (v : String)
    (h : pyLower v ∈ knownApis) (inst : Installed) :
    ok_api (set_qt_api ⟨none, some v⟩ inst "") = some (pyLower v) := by
  have hr : resolve_qt_api ⟨none, some v⟩ inst "" = Except.ok (pyLower v) := by
    simp [resolve_qt_api, h]
  unfold set_qt_api
  rw [hr]
  simp only [knownApis, List.mem_cons, List.not_mem_nil, or_false] at h
  rcases h with h | h | h | h <;> rw [h] <;> rfl

/-- Witness for C6: the mixed-case configured value "PyQt4V2" resolves to
the pyqt4v2 discriminant. -/
theorem valid_configured_value_selected_witness :
    ok_api (set_qt_api ⟨none, some "PyQt4V2"⟩ ⟨true, true, true⟩ "") =
      some (pyLower "PyQt4V2") :=
  valid_configured_value_selected "PyQt4V2" (by decide) ⟨true, true, true⟩

/-- Counterexample to C2 as stated: with the force flag set (and even with
override and configured value both demanding pyside, the backend whose
facade sources are QtCore.Signal, QtCore.Slot and QtCore.Property), the
constructed facade carries the pyqt4 discriminant and the pyqtSignal-family
sources, not the pyside ones the claim describes. -/
theorem force_flag_oldest_backend_counterexample :
    (ok_facade (set_qt_api ⟨some "true", some "pyside"⟩ ⟨true, true, true⟩
        "pyside")).map
        (fun f => (f.pytest_qt_api, f.Signal, f.Slot, f.Property)) =
      some ("pyqt4", "QtCore.pyqtSignal", "QtCore.pyqtSlot",
        "QtCore.pyqtProperty") ∧
    ("pyqt4", "QtCore.pyqtSignal", "QtCore.pyqtSlot", "QtCore.pyqtProperty") ≠
      ("pyside", "QtCore.Signal", "QtCore.Slot", "QtCore.Property") :=
  ⟨rfl, by decide⟩

/-- C2 (amended): whenever the force flag holds exactly "true", resolution
yields the pyqt4 discriminant regardless of the override, the configured
value and which backends are installed; the facade sources its
signal/slot/property names from QtCore.pyqtSignal, QtCore.pyqtSlot and
QtCore.pyqtProperty, and its legacy installer slot is populated while the
modern one holds the None sentinel. -/
theorem force_flag_forces_pyqt4 (cfg : Option String)
    (inst : Installed) (ov : String) :
    (ok_facade (set_qt_api ⟨some "true", cfg⟩ inst ov)).map
        (fun f => (f.pytest_qt_api, f.Signal, f.Slot, f.Property,
          f.qInstallMsgHandler, f.qInstallMessageHandler)) =
      some ("pyqt4", "QtCore.pyqtSignal", "QtCore.pyqtSlot",
        "QtCore.pyqtProperty", Attr.sym "QtCore.qInstallMsgHandler",
        Attr.pyNone) :=
  rfl

/-- C7: the loading trace of a successful `set_qt_api` call performs, for
the pyqt4v2 discriminant, exactly the seven version-2 `sip.setapi` calls
for QDate, QDateTime, QString, QTextStream, QTime, QUrl and QVariant, all
strictly before the QtCore import (only the `import sip` precedes them);
for every other known discriminant no `sip.setapi` call appears at all. -/
theorem setapi_calls_precede_core_import (api : String) (h : api ∈ knownApis)
    (inst : Installed) :
    ∃ r, set_qt_api ⟨none, none⟩ inst api = Except.ok r ∧
      r.facade.pytest_qt_api = api ∧
      (api = "pyqt4v2" →
        ∃ t₀ t₂, r.trace = t₀ ++ sip_setapi_names.map LoadEvent.setApi ++ t₂ ∧
          (∀ n, LoadEvent.setApi n ∉ t₀) ∧
          (∀ root sub, LoadEvent.importMod root sub ∉ t₀) ∧
          (∀ n, LoadEvent.setApi n ∉ t₂) ∧
          LoadEvent.importMod "PyQt4" "QtCore" ∈ t₂) ∧
      (api ≠ "pyqt4v2" → ∀ n, LoadEvent.setApi n ∉ r.trace) := by
  simp only [knownApis, List.mem_cons, List.not_mem_nil, or_false] at h
  rcases h with h | h | h | h <;> subst h <;> refine ⟨_, rfl, rfl, ?_, ?_⟩
  · intro hc; exact absurd hc (by decide)
  · intro _ n; simp [load_trace]
  · intro hc; exact absurd hc (by decide)
  · intro _ n; simp [load_trace]
  · intro _
    refine ⟨[LoadEvent.importPkg "sip"],
      [LoadEvent.importMod "PyQt4" "QtCore",
       LoadEvent.importMod "PyQt4" "QtGui",
       LoadEvent.importMod "PyQt4" "QtTest"], rfl, ?_, ?_, ?_, ?_⟩
    · intro n; simp
    · intro root sub; simp
    · intro n; simp
    · simp
  · intro hc; exact absurd rfl hc
  · intro hc; exact absurd hc (by decide)
  · intro _ n; simp [load_trace]

/-- Witness for C7: the pyqt4v2 trace as an explicit ordered event list. -/
theorem setapi_calls_precede_core_import_witness :
    ∃ r, set_qt_api ⟨none, none⟩ ⟨false, false, false⟩ "pyqt4v2" =
        Except.ok r ∧
      r.facade.pytest_qt_api = "pyqt4v2" ∧
      ("pyqt4v2" = "pyqt4v2" →
        ∃ t₀ t₂, r.trace = t₀ ++ sip_setapi_names.map LoadEvent.setApi ++ t₂ ∧
          (∀ n, LoadEvent.setApi n ∉ t₀) ∧
          (∀ root sub, LoadEvent.importMod root sub ∉ t₀) ∧
          (∀ n, LoadEvent.setApi n ∉ t₂) ∧
          LoadEvent.importMod "PyQt4" "QtCore" ∈ t₂) ∧
      ("pyqt4v2" ≠ "pyqt4v2" → ∀ n, LoadEvent.setApi n ∉ r.trace) :=
  setapi_calls_precede_core_import "pyqt4v2" (by decide) ⟨false, false, false⟩

/-- Counterexample to C8 as stated: the version reporter does not use one
display name shared by all of pyqt4, pyqt4v2 and pyqt5 — the pyqt4 facade
reports "PyQt4" while the pyqt5 facade reports "PyQt5". -/
theorem modern_shared_display_name_counterexample :
    (get_versions "pyqt4" "1.2.2" ⟨"4.8.7", "4.11.4", "4.8.7", "4.8.7"⟩).qt_api
        = "PyQt4" ∧
    (get_versions "pyqt5" "1.2.2" ⟨"4.8.7", "4.11.4", "4.8.7", "4.8.7"⟩).qt_api
        = "PyQt5" ∧
    ("PyQt4" : String) ≠ "PyQt5" :=
  ⟨rfl, rfl, by decide⟩

/-- C8 (amended): for a facade whose discriminant is pyqt4, pyqt4v2 or
pyqt5, the version reporter reads the backend version from the fixed
PYQT_VERSION_STR constant of the core module, the compiled-binary version
from its fixed QT_VERSION_STR constant and the native-runtime version from
core.qVersion(); the backend-name field is the display name "PyQt5" for
pyqt5 and the display name "PyQt4" shared by the two pyqt4 flavors. -/
theorem modern_family_versions (api : String)
    (h : api = "pyqt4" ∨ api = "pyqt4v2" ∨ api = "pyqt5")
    (pv : String) (core : QtCoreMod) :
    (api = "pyqt5" → (get_versions api pv core).qt_api = "PyQt5") ∧
    (api ≠ "pyqt5" → (get_versions api pv core).qt_api = "PyQt4") ∧
    (get_versions api pv core).qt_api_version = core.PYQT_VERSION_STR ∧
    (get_versions api pv core).runtime = core.qVersion ∧
    (get_versions api pv core).compiled = core.QT_VERSION_STR := by
  rcases h with h | h | h <;> subst h
  · exact ⟨fun hc => absurd hc (by decide), fun _ => rfl, rfl, rfl, rfl⟩
  · exact ⟨fun hc => absurd hc (by decide), fun _ => rfl, rfl, rfl, rfl⟩
  · exact ⟨fun _ => rfl, fun hc => absurd rfl hc, rfl, rfl, rfl⟩

/-- Witness for C8 (amended): the pyqt4v2 facade reports the PyQt4 display
name and the fixed core version constants. -/
theorem modern_family_versions_witness :
    ("pyqt4v2" = "pyqt5" →
      (get_versions "pyqt4v2" "1.2.2"
        ⟨"4.8.7", "4.11.4", "4.8.6", "4.8.7"⟩).qt_api = "PyQt5") ∧
    ("pyqt4v2" ≠ "pyqt5" →
      (get_versions "pyqt4v2" "1.2.2"
        ⟨"4.8.7", "4.11.4", "4.8.6", "4.8.7"⟩).qt_api = "PyQt4") ∧
    (get_versions "pyqt4v2" "1.2.2"
        ⟨"4.8.7", "4.11.4", "4.8.6", "4.8.7"⟩).qt_api_version = "4.11.4" ∧
    (get_versions "pyqt4v2" "1.2.2"
        ⟨"4.8.7", "4.11.4", "4.8.6", "4.8.7"⟩).runtime = "4.8.7" ∧
    (get_versions "pyqt4v2" "1.2.2"
        ⟨"4.8.7", "4.11.4", "4.8.6", "4.8.7"⟩).compiled = "4.8.6" :=
  modern_family_versions "pyqt4v2" (Or.inr (Or.inl rfl)) "1.2.2"
    ⟨"4.8.7", "4.11.4", "4.8.6", "4.8.7"⟩

/-- Counterexample to C9 as stated: the non-empty unknown explicit override
"bogus" passes resolution unvalidated (the resolver returns it verbatim)
and the failure is the KeyError of the root-package mapping lookup, not a
validation rejection before that mapping is reached. -/
theorem unknown_override_not_validated_counterexample :
    resolve_qt_api ⟨none, none⟩ ⟨true, true, true⟩ "bogus" =
        Except.ok "bogus" ∧
    set_qt_api ⟨none, none⟩ ⟨true, true, true⟩ "bogus" =
        Except.error (QtError.keyError "bogus") ∧
    Except.error (QtError.keyError "bogus") ≠
      (Except.error (QtError.runtimeError
          ("Invalid value for $PYTEST_QT_API: " ++ "bogus")) :
        Except QtError QtApiResult) :=
  ⟨rfl, rfl, by simp⟩

/-- C9 (amended): a non-empty explicit override outside the known set is
not validated by the resolver; it is accepted verbatim and the call fails
with the KeyError of the root-package mapping lookup, before any module is
imported and before any facade is constructed. -/
theorem unknown_override_fails_at_root_mapping (ov : String) (h1 : ov ≠ "")
    (h2 : ov ∉ knownApis) (inst : Installed) :
    resolve_qt_api ⟨none, none⟩ inst ov = Except.ok ov ∧
    set_qt_api ⟨none, none⟩ inst ov = Except.error (QtError.keyError ov) := by
  have hr : resolve_qt_api ⟨none, none⟩ inst ov = Except.ok ov := by
    simp [resolve_qt_api, h1]
  have h3 : ov ≠ "pyside" ∧ ov ≠ "pyqt4" ∧ ov ≠ "pyqt4v2" ∧ ov ≠ "pyqt5" := by
    simpa [knownApis, not_or] using h2
  have hl : root_modules.lookup ov = none := by
    simp [root_modules, List.lookup, beq_eq_false_iff_ne.mpr h3.1,
      beq_eq_false_iff_ne.mpr h3.2.1, beq_eq_false_iff_ne.mpr h3.2.2.1,
      beq_eq_false_iff_ne.mpr h3.2.2.2]
  refine ⟨hr, ?_⟩
  unfold set_qt_api
  rw [hr]
  simp [hl]

/-- Witness for C9 (amended): the override "bogus" reaches the mapping and
fails with its KeyError. -/
theorem unknown_override_fails_at_root_mapping_witness :
    resolve_qt_api ⟨none, none⟩ ⟨false, true, false⟩ "bogus" =
        Except.ok "bogus" ∧
    set_qt_api ⟨none, none⟩ ⟨false, true, false⟩ "bogus" =
        Except.error (QtError.keyError "bogus") :=
  unknown_override_fails_at_root_mapping "bogus" (by decide) (by decide)
    ⟨false, true, false⟩

end QtCompat
